import Mathlib

/-!
Verification of the Media Resizer backend (src/backend/main.py) against its
natural-language specification.

The embedding below follows the FastAPI implementation in main.py.  Python
integer/float arithmetic on nonnegative integers such as `int(w * (pct / 100))`
or `int((frame_count / total) * 100)` is modelled as exact rational division
followed by truncation, i.e. Nat floor division; `ZeroDivisionError` (raised by
Python when the denominator is an integer 0) is modelled explicitly.  External
collaborators (OpenCV, PIL, the filesystem) are modelled by their observable
contract at the call sites used by main.py: `cv.resize` raises when the
requested destination size has a zero component, `cv.imread` returns None for
an unreadable file, `os.path.exists` is an oracle parameter.
-/

/-- Job status strings stored in `status_store` (main.py lines 77, 121, 128). -/
inductive Status where
  | processing
  | completed
  | failed
  deriving DecidableEq

/-- Interpolation filters selected at main.py line 85: `cv.INTER_CUBIC if upscale else cv.INTER_AREA`. -/
inductive FilterKind where
  | cubic
  | area
  deriving DecidableEq

/-- Target size of `pure_upscale` (main.py lines 50-55):
`scale = (100 + percentage) / 100.0; new_size = (int(w * scale), int(h * scale))`. -/
def pure_upscale_size (w h pct : Nat) : Nat × Nat :=
  (w * (100 + pct) / 100, h * (100 + pct) / 100)

/-- Target size of `pure_resize` (main.py lines 57-61):
`new_size = (int(w * percentage / 100), int(h * percentage / 100))`. -/
def pure_resize_size (w h pct : Nat) : Nat × Nat :=
  (w * pct / 100, h * pct / 100)

/-- Interpolation choice of main.py line 85. -/
def selectInterpolation (upscale : Bool) : FilterKind :=
  if upscale then FilterKind.cubic else FilterKind.area

/-- The target-dimension-and-filter computation as the code performs it:
size from `pure_upscale`/`pure_resize` (main.py lines 50-61, selected in
`resize_image` lines 144-149) and filter from line 85. -/
def computeTarget_code (w h pct : Nat) (up : Bool) : (Nat × Nat) × FilterKind :=
  ((if up then pure_upscale_size w h pct else pure_resize_size w h pct),
   selectInterpolation up)

/-- The same computation as the specification words it (claim C7):
`effectivePercent = 100 + percentage` with Cubic when upscaling, otherwise
`effectivePercent = percentage` with AreaAverage, and each target dimension is
`floor(source x effectivePercent / 100)` over the rationals. -/
def computeTarget_spec (w h pct : Nat) (up : Bool) : (Nat × Nat) × FilterKind :=
  let ep : Nat := if up then 100 + pct else pct
  ((⌊((w * ep : Nat) : ℚ) / (100 : ℚ)⌋₊, ⌊((h * ep : Nat) : ℚ) / (100 : ℚ)⌋₊),
   if up then FilterKind.cubic else FilterKind.area)

/-- Contract of `cv.resize` at the call sites in main.py: it raises a
`cv2.error` when the requested destination size has a zero component and
otherwise returns a frame of exactly that size. -/
def cvResize (sz : Nat × Nat) : Except String (Nat × Nat) :=
  if sz.1 = 0 ∨ sz.2 = 0 then Except.error "cv2.error: empty size" else Except.ok sz

/-- Outcome of one adapter call together with the sequence of
`progress_store[task_id] = ...` writes it performed before returning (ok)
or before its exception escaped (err). -/
inductive AdapterResult where
  | ok (writes : List Nat)
  | err (writes : List Nat)
  deriving DecidableEq

/-- `resize_image` (main.py lines 135-158): `imread` returning None raises;
otherwise progress is set to 20, the image is resized via `pure_upscale` or
`pure_resize` (which raises on a zero-dimension target), progress is set to
80, and the file is written.  `img` is the source dimensions, or none when
`cv.imread` could not read the file. -/
def resize_image_run (img : Option (Nat × Nat)) (pct : Nat) (up : Bool) : AdapterResult :=
  match img with
  | none => AdapterResult.err []
  | some (w, h) =>
    let sz := if up then pure_upscale_size w h pct else pure_resize_size w h pct
    match cvResize sz with
    | Except.error _ => AdapterResult.err [20]
    | Except.ok _ => AdapterResult.ok [20, 80]

/-- The single video target size of `resize_video` (main.py lines 178-183),
computed once from the capture metadata before the frame loop. -/
def video_new_size (w h pct : Nat) (up : Bool) : Nat × Nat :=
  let ep := if up then 100 + pct else pct
  (w * ep / 100, h * ep / 100)

/-- The frame loop of `resize_video` (main.py lines 190-201).  Each iteration
resizes the frame to the fixed target size (raising on an empty size) and then
executes `progress_store[task_id] = int((frame_count / total) * 100)`, which
raises `ZeroDivisionError` when the declared frame count `total` is 0.
Returns the progress writes performed and the exception, if one was raised.
`rem` is the number of frames `cap.read` will still deliver and `fc` the
`frame_count` so far. -/
def videoLoop (sz : Nat × Nat) (total : Nat) : Nat → Nat → List Nat × Option String
  | 0, _ => ([], none)
  | rem + 1, fc =>
    match cvResize sz with
    | Except.error e => ([], some e)
    | Except.ok _ =>
      if total = 0 then ([], some "ZeroDivisionError")
      else
        let p := ((fc + 1) * 100) / total
        let r := videoLoop sz total rem (fc + 1)
        (p :: r.1, r.2)

/-- `resize_video` (main.py lines 164-208): raises when the capture cannot be
opened, otherwise computes the target size once and runs the frame loop.
`total` is the declared `CAP_PROP_FRAME_COUNT`, `numFrames` the number of
frames actually delivered by `cap.read`. -/
def resize_video_run (opened : Bool) (w h pct : Nat) (up : Bool) (total numFrames : Nat) :
    AdapterResult :=
  if opened = false then AdapterResult.err []
  else
    match videoLoop (video_new_size w h pct up) total numFrames 0 with
    | (ws, none) => AdapterResult.ok ws
    | (ws, some _) => AdapterResult.err ws

/-- The per-frame target size of `resize_gif` (main.py lines 224, 230),
recomputed inside the loop from each frame's own dimensions. -/
def gif_new_size (fw fh pct : Nat) (up : Bool) : Nat × Nat :=
  let ep := if up then 100 + pct else pct
  (fw * ep / 100, fh * ep / 100)

/-- The frame loop of `resize_gif` (main.py lines 226-234): per frame, the
target size is recomputed from that frame, `cv.resize` may raise, and then
`progress_store[task_id] = int(((i + 1) / total_frames) * 100)` runs. -/
def gifLoop (pct : Nat) (up : Bool) (total : Nat) : List (Nat × Nat) → Nat → List Nat × Option String
  | [], _ => ([], none)
  | f :: rest, i =>
    match cvResize (gif_new_size f.1 f.2 pct up) with
    | Except.error e => ([], some e)
    | Except.ok _ =>
      let p := ((i + 1) * 100) / total
      let r := gifLoop pct up total rest (i + 1)
      (p :: r.1, r.2)

/-- `resize_gif` (main.py lines 214-240): iterates all frames, then saves
`processed[0]`, which raises IndexError when the frame list is empty. -/
def resize_gif_run (frames : List (Nat × Nat)) (pct : Nat) (up : Bool) : AdapterResult :=
  match gifLoop pct up frames.length frames 0 with
  | (ws, some _) => AdapterResult.err ws
  | (ws, none) => if frames.isEmpty then AdapterResult.err ws else AdapterResult.ok ws

/-- Output dimensions of every frame written by `resize_video`: the loop at
main.py line 197 resizes each delivered frame to the one `new_size` computed
at line 183, regardless of the frame's own dimensions. -/
def resize_video_sizes (w h pct : Nat) (up : Bool) (frames : List (Nat × Nat)) :
    List (Nat × Nat) :=
  frames.map (fun _ => video_new_size w h pct up)

/-- Output dimensions of every frame written by `resize_gif`: main.py line 230
recomputes `new_size` inside the loop from each frame's own `shape`. -/
def resize_gif_sizes (frames : List (Nat × Nat)) (pct : Nat) (up : Bool) :
    List (Nat × Nat) :=
  frames.map (fun f => gif_new_size f.1 f.2 pct up)

/-- One observable snapshot of a job: the pair a poll of
`status_store[task_id]` and `progress_store[task_id]` would return. -/
structure Obs where
  status : Status
  progress : Nat
  deriving DecidableEq

/-- The sequence of observable (status, progress) snapshots of one job, in
program order of the store writes: `resize_media` initialises
(processing, 0) (main.py lines 76-77); each adapter progress write is
observable while status is still processing; on success `process_file` sets
status completed (line 121) and then progress 100 (line 122); on an exception
it sets status failed (line 128) and then progress 0 (line 129).  Because
status and progress live in two separate dicts, the intermediate state after
the status write but before the final progress write is observable. -/
def obsTrace : AdapterResult → List Obs
  | AdapterResult.ok ws =>
    ⟨Status.processing, 0⟩ :: (ws.map fun w => ⟨Status.processing, w⟩)
      ++ [⟨Status.completed, ws.getLast?.getD 0⟩, ⟨Status.completed, 100⟩]
  | AdapterResult.err ws =>
    ⟨Status.processing, 0⟩ :: (ws.map fun w => ⟨Status.processing, w⟩)
      ++ [⟨Status.failed, ws.getLast?.getD 0⟩, ⟨Status.failed, 0⟩]

/-- The progress values of the observable snapshots, i.e. what a poller of the
progress endpoint can read over the life of the job. -/
def progressTrace (r : AdapterResult) : List Nat :=
  (obsTrace r).map Obs.progress

/-- The three global dict stores of main.py lines 42-44, as association lists
(most recent write first, as `List.lookup` returns the first match). -/
structure Stores where
  progress : List (String × Nat)
  status : List (String × String)
  result : List (String × String)
  deriving DecidableEq

/-- Lower-casing of one ASCII character, as Python `str.lower` acts on the
extension characters involved here. -/
def lowerChar (c : Char) : Char :=
  if 'A' ≤ c ∧ c ≤ 'Z' then Char.ofNat (c.toNat + 32) else c

/-- The segment after the last dot (the whole string when there is no dot):
Python `filename.split(".")[-1]`. -/
def extAux : List Char → List Char → List Char
  | [], cur => cur
  | c :: rest, cur => if c = '.' then extAux rest [] else extAux rest (cur ++ [c])

/-- `file.filename.split(".")[-1].lower()` (main.py lines 82 and 271). -/
def lastExtLower (fn : String) : String :=
  String.mk ((extAux fn.data []).map lowerChar)

/-- `resize_media` (main.py lines 67-101): unconditionally allocates a task
id, writes `progress_store[task_id] = 0` and `status_store[task_id] =
"processing"`, computes the extension, saves the upload, schedules
`process_file`, and returns `{task_id, status: "processing"}`.  There is no
extension check on this path and no error response.  Returns the updated
stores, the response body, and the extension handed to the background task. -/
def resize_media (s : Stores) (task_id : String) (filename : String) :
    Stores × (String × String) × String :=
  ({ s with progress := (task_id, 0) :: s.progress,
            status := (task_id, "processing") :: s.status },
   (task_id, "processing"),
   lastExtLower filename)

/-- Outcomes of the three codec adapters for one job, as seen by
`process_file`: the output path on success, or the message of the exception
the adapter raised. -/
structure Env where
  imageResult : Except String String
  gifResult : Except String String
  videoResult : Except String String

/-- The extension dispatch of `process_file` (main.py lines 111-118):
unmatched extensions raise `Exception("Unsupported file format")`. -/
def dispatch (env : Env) (ext : String) : Except String String :=
  if ext = "jpeg" ∨ ext = "jpg" ∨ ext = "png" then env.imageResult
  else if ext = "gif" then env.gifResult
  else if ext = "mp4" ∨ ext = "mov" ∨ ext = "avi" ∨ ext = "mkv" ∨ ext = "3gp" then env.videoResult
  else Except.error "Unsupported file format"

/-- `process_file` (main.py lines 107-129): on success records the result path
and sets status completed and progress 100; any `Exception` from the dispatch
(adapter errors and the unsupported-format error alike) is caught by the
`try/except` and turned into status failed, progress 0.  The function is total:
no exception escapes to the caller. -/
def process_file (env : Env) (s : Stores) (task_id ext : String) : Stores :=
  match dispatch env ext with
  | Except.ok out =>
      { s with result := (task_id, out) :: s.result,
               status := (task_id, "completed") :: s.status,
               progress := (task_id, 100) :: s.progress }
  | Except.error _ =>
      { s with status := (task_id, "failed") :: s.status,
               progress := (task_id, 0) :: s.progress }

/-- `GET /resize/{task_id}/progress` (main.py lines 246-255): 404 when the id
is not in `progress_store`, otherwise the task id, the status (defaulting to
"unknown"), and the progress. -/
def get_progress (s : Stores) (task_id : String) : Except (Nat × String) (String × String × Nat) :=
  match List.lookup task_id s.progress with
  | none => Except.error (404, "Task ID not found")
  | some p => Except.ok (task_id, (List.lookup task_id s.status).getD "unknown", p)

/-- The supported upload extensions (main.py lines 111-116). -/
def supportedExts : List String :=
  ["jpeg", "jpg", "png", "gif", "mp4", "mov", "avi", "mkv", "3gp"]

/-- Media-type selection of `get_result` (main.py lines 271-279). -/
def mimeOf (ext : String) : String :=
  if ext = "jpg" ∨ ext = "jpeg" ∨ ext = "png" then "image/" ++ ext
  else if ext = "gif" then "image/gif"
  else if ext = "mp4" ∨ ext = "mov" ∨ ext = "avi" ∨ ext = "mkv" ∨ ext = "3gp" then "video/" ++ ext
  else "application/octet-stream"

/-- `GET /resize/{task_id}/result` (main.py lines 261-283): 400 whenever the
stored status is not "completed" (including an unknown id, for which
`status_store.get` returns None); 404 when the result path is absent, empty,
or the file does not exist; otherwise streams the file with the media type
derived from the output extension.  `fileExists` models `os.path.exists`. -/
def get_result (s : Stores) (fileExists : String → Bool) (task_id : String) :
    Except (Nat × String) (String × String) :=
  if List.lookup task_id s.status ≠ some "completed" then
    Except.error (400, "Task not completed yet")
  else
    match List.lookup task_id s.result with
    | none => Except.error (404, "Result file not found")
    | some p =>
      if p = "" ∨ fileExists p = false then Except.error (404, "Result file not found")
      else Except.ok (p, mimeOf (lastExtLower p))

/-- The progress writes `resize_video` performs on a successful run with
declared frame count `total`, starting from `frame_count = fc`. -/
def videoWritesAux (total : Nat) : Nat → Nat → List Nat
  | 0, _ => []
  | rem + 1, fc => ((fc + 1) * 100) / total :: videoWritesAux total rem (fc + 1)

/-- The progress writes of a successful `resize_video` run over `numFrames`
frames with declared frame count `total`. -/
def videoWrites (total numFrames : Nat) : List Nat :=
  videoWritesAux total numFrames 0

/-- Empty stores, the state before any job is submitted. -/
def emptyStores : Stores := ⟨[], [], []⟩

/-- An adapter environment in which every adapter succeeds. -/
def okEnv : Env := ⟨Except.ok "out.png", Except.ok "out.gif", Except.ok "out.mp4"⟩

/-- An adapter environment in which every adapter raises. -/
def failEnv : Env := ⟨Except.error "boom", Except.error "boom", Except.error "boom"⟩

/-- Floor over the rationals of a natural number divided by 100 equals Nat
floor division by 100. -/
lemma floorDiv100 (m : Nat) : ⌊((m : ℕ) : ℚ) / (100 : ℚ)⌋₊ = m / 100 := by
  rw [show ((100 : ℚ)) = ((100 : ℕ) : ℚ) by norm_num, Nat.floor_div_nat, Nat.floor_natCast]

lemma obsTrace_getLast_ok (ws : List Nat) :
    (obsTrace (AdapterResult.ok ws)).getLast? = some ⟨Status.completed, 100⟩ := by
  show ((Obs.mk Status.processing 0 :: ws.map fun w => Obs.mk Status.processing w)
      ++ Obs.mk Status.completed (ws.getLast?.getD 0) :: [Obs.mk Status.completed 100]).getLast? = _
  rw [List.getLast?_append_cons]
  rfl

lemma obsTrace_getLast_err (ws : List Nat) :
    (obsTrace (AdapterResult.err ws)).getLast? = some ⟨Status.failed, 0⟩ := by
  show ((Obs.mk Status.processing 0 :: ws.map fun w => Obs.mk Status.processing w)
      ++ Obs.mk Status.failed (ws.getLast?.getD 0) :: [Obs.mk Status.failed 0]).getLast? = _
  rw [List.getLast?_append_cons]
  rfl

lemma map_progress_mk (st : Status) (ws : List Nat) :
    List.map (Obs.progress ∘ fun w => Obs.mk st w) ws = ws := by
  induction ws with
  | nil => rfl
  | cons a l ih => simp [ih]

lemma progressTrace_ok (ws : List Nat) :
    progressTrace (AdapterResult.ok ws) = 0 :: ws ++ [ws.getLast?.getD 0, 100] := by
  simp [progressTrace, obsTrace, List.map_append, map_progress_mk]

lemma progressTrace_err (ws : List Nat) :
    progressTrace (AdapterResult.err ws) = 0 :: ws ++ [ws.getLast?.getD 0, 0] := by
  simp [progressTrace, obsTrace, List.map_append, map_progress_mk]

lemma trace_chain (ws : List Nat) (h1 : List.Chain' (· ≤ ·) ws)
    (h2 : ∀ w ∈ ws, w ≤ 100) :
    List.Chain' (· ≤ ·) (0 :: ws ++ [ws.getLast?.getD 0, 100]) := by
  have hlast : ∀ x ∈ ws.getLast?, x ≤ 100 := by
    intro x hx
    rcases List.mem_getLast?_eq_getLast hx with ⟨hne, rfl⟩
    exact h2 _ (List.getLast_mem hne)
  rw [show (0 :: ws ++ [ws.getLast?.getD 0, 100])
      = (0 :: ws) ++ [ws.getLast?.getD 0, 100] from rfl]
  rw [List.chain'_append]
  refine ⟨?_, ?_, ?_⟩
  · rw [List.chain'_cons']
    exact ⟨fun y _ => Nat.zero_le y, h1⟩
  · rw [List.chain'_cons']
    refine ⟨?_, List.chain'_singleton 100⟩
    intro y hy
    have hy' : 100 = y := by simpa using hy
    subst hy'
    cases hws : ws.getLast? with
    | none => simp
    | some x => simpa [hws] using hlast x (by rw [hws]; rfl)
  · intro x hx y hy
    have hy' : ws.getLast?.getD 0 = y := by simpa using hy
    subst hy'
    cases hws : ws.getLast? with
    | none =>
      have hnil : ws = [] := List.getLast?_eq_none_iff.mp hws
      subst hnil
      have hx' : (0 : Nat) = x := by simpa using hx
      subst hx'
      simp
    | some z =>
      have hne : ws ≠ [] := by
        intro hnil
        rw [hnil] at hws
        cases hws
      obtain ⟨w, ws', rfl⟩ : ∃ w ws', ws = w :: ws' := by
        cases ws with
        | nil => exact absurd rfl hne
        | cons a l => exact ⟨a, l, rfl⟩
      rw [List.getLast?_cons_cons] at hx
      rw [hws] at hx
      have hx' : z = x := by simpa using hx
      subst hx'
      simp [hws]

lemma videoLoop_eq (sz : Nat × Nat) (hw : sz.1 ≠ 0) (hh : sz.2 ≠ 0)
    (total : Nat) (h0 : total ≠ 0) :
    ∀ rem fc, videoLoop sz total rem fc = (videoWritesAux total rem fc, none) := by
  intro rem
  induction rem with
  | zero => intro fc; simp [videoLoop, videoWritesAux]
  | succ n ih =>
    intro fc
    have hcv : cvResize sz = Except.ok sz := by simp [cvResize, hw, hh]
    simp [videoLoop, videoWritesAux, hcv, h0, ih]

lemma videoWritesAux_chain (total : Nat) :
    ∀ rem fc, List.Chain' (· ≤ ·) (videoWritesAux total rem fc) := by
  intro rem
  induction rem with
  | zero => intro fc; simp [videoWritesAux]
  | succ n ih =>
    intro fc
    show List.Chain' (· ≤ ·) (((fc + 1) * 100) / total :: videoWritesAux total n (fc + 1))
    rw [List.chain'_cons']
    refine ⟨?_, ih (fc + 1)⟩
    intro y hy
    cases n with
    | zero => simp [videoWritesAux] at hy
    | succ m =>
      have hhd : (videoWritesAux total (m + 1) (fc + 1)).head?
          = some (((fc + 2) * 100) / total) := rfl
      rw [hhd] at hy
      have hy' : ((fc + 2) * 100) / total = y := by simpa using hy
      subst hy'
      exact Nat.div_le_div_right (Nat.mul_le_mul_right _ (by omega))

lemma videoWritesAux_le (total : Nat) (h0 : 0 < total) :
    ∀ rem fc, fc + rem ≤ total → ∀ w ∈ videoWritesAux total rem fc, w ≤ 100 := by
  intro rem
  induction rem with
  | zero => intro fc _ w hw; simp [videoWritesAux] at hw
  | succ n ih =>
    intro fc hfc w hw
    rw [show videoWritesAux total (n + 1) fc
        = ((fc + 1) * 100) / total :: videoWritesAux total n (fc + 1) from rfl] at hw
    rcases List.mem_cons.mp hw with rfl | hmem
    · calc (fc + 1) * 100 / total ≤ total * 100 / total :=
            Nat.div_le_div_right (Nat.mul_le_mul_right _ (by omega))
        _ = 100 := by rw [Nat.mul_div_cancel_left _ h0]
    · exact ih (fc + 1) (by omega) w hmem

lemma dispatch_unsupported (env : Env) (ext : String) (h : ext ∉ supportedExts) :
    dispatch env ext = Except.error "Unsupported file format" := by
  simp [supportedExts] at h
  obtain ⟨h1, h2, h3, h4, h5, h6, h7, h8, h9⟩ := h
  simp [dispatch, h1, h2, h3, h4, h5, h6, h7, h8, h9]

/-- Claim C7 (confirmed): for every source dimension pair and percentage, the
target-dimension computation yields floor(source x effectivePercent / 100)
with effectivePercent = 100 + percentage and cubic interpolation when upscale
is true, and effectivePercent = percentage with area-averaging interpolation
when upscale is false; a 200x100 source at percentage 50 yields 100x50 when
downscaling and 300x150 when upscaling. -/
theorem C7_computeTarget (w h pct : Nat) (up : Bool) :
    computeTarget_code w h pct up = computeTarget_spec w h pct up
    ∧ computeTarget_code 200 100 50 false = ((100, 50), FilterKind.area)
    ∧ computeTarget_code 200 100 50 true = ((300, 150), FilterKind.cubic) := by
  refine ⟨?_, by decide, by decide⟩
  cases up with
  | false =>
    show (pure_resize_size w h pct, selectInterpolation false)
        = ((⌊((w * pct : Nat) : ℚ) / (100 : ℚ)⌋₊, ⌊((h * pct : Nat) : ℚ) / (100 : ℚ)⌋₊),
           FilterKind.area)
    rw [floorDiv100, floorDiv100]
    rfl
  | true =>
    show (pure_upscale_size w h pct, selectInterpolation true)
        = ((⌊((w * (100 + pct) : Nat) : ℚ) / (100 : ℚ)⌋₊,
            ⌊((h * (100 + pct) : Nat) : ℚ) / (100 : ℚ)⌋₊), FilterKind.cubic)
    rw [floorDiv100, floorDiv100]
    rfl

/-- Claim C6 counterexample: `pure_resize` applies no clamping at all; at
percentage 0 the computed target is (0, 0), so the target dimensions are not
floored to at least 1 pixel. -/
theorem C6_counterexample :
    pure_resize_size 200 100 0 = (0, 0) ∧ ¬ 1 ≤ (pure_resize_size 200 100 0).1 := by
  decide

/-- Claim C6 amended: no minimum clamp exists; a downscale with percentage 0
computes target dimensions (0, 0), which makes `cv.resize` raise, and the job
ends failed with progress 0.  No zero-dimension output file is ever written,
but because the job fails, not because of a clamp. -/
theorem C6_amended (w h : Nat) :
    pure_resize_size w h 0 = (0, 0)
    ∧ resize_image_run (some (w, h)) 0 false = AdapterResult.err [20]
    ∧ (obsTrace (resize_image_run (some (w, h)) 0 false)).getLast? = some ⟨Status.failed, 0⟩ := by
  have h1 : pure_resize_size w h 0 = (0, 0) := by simp [pure_resize_size]
  have h2 : resize_image_run (some (w, h)) 0 false = AdapterResult.err [20] := by
    simp [resize_image_run, pure_resize_size, cvResize]
  refine ⟨h1, h2, ?_⟩
  rw [h2]
  exact obsTrace_getLast_err [20]

/-- Claim C5 (code bug): when the declared frame count is 0 and at least one
frame is readable, the progress expression `int((frame_count / total) * 100)`
raises ZeroDivisionError on the first frame, so the job fails (status failed,
progress 0) instead of degrading to indeterminate progress reporting.  Only
when no frame is readable does the job complete. -/
theorem C5_div_by_zero :
    resize_video_run true 100 100 50 false 0 1 = AdapterResult.err []
    ∧ (obsTrace (resize_video_run true 100 100 50 false 0 1)).getLast? = some ⟨Status.failed, 0⟩
    ∧ resize_video_run true 100 100 50 false 0 0 = AdapterResult.ok [] := by
  refine ⟨by decide, ?_, by decide⟩
  have h : resize_video_run true 100 100 50 false 0 1 = AdapterResult.err [] := by decide
  rw [h]
  exact obsTrace_getLast_err []

/-- Claim C8 counterexample: `resize_gif` recomputes the target size inside
the frame loop from each frame's own dimensions, so a GIF whose frames have
different dimensions produces output frames with different dimensions. -/
theorem C8_counterexample :
    resize_gif_sizes [(100, 100), (50, 50)] 50 false = [(50, 50), (25, 25)]
    ∧ ((50, 50) : Nat × Nat) ≠ (25, 25) := by
  decide

/-- Claim C8 amended: for video jobs the target dimensions are computed once
from the capture metadata and reused for every frame, so all video output
frames are identical; for GIF jobs the target is recomputed per frame from
that frame's own dimensions, so the output frames are identical only when all
input frames share the same dimensions. -/
theorem C8_amended (w h pct : Nat) (up : Bool) (frames gframes : List (Nat × Nat))
    (hg : ∀ f ∈ gframes, ∀ g ∈ gframes, f = g) :
    (∀ d ∈ resize_video_sizes w h pct up frames, d = video_new_size w h pct up)
    ∧ (∀ d ∈ resize_gif_sizes gframes pct up, ∀ d2 ∈ resize_gif_sizes gframes pct up, d = d2) := by
  constructor
  · intro d hd
    rcases List.mem_map.mp hd with ⟨f, -, rfl⟩
    rfl
  · intro d hd d2 hd2
    rcases List.mem_map.mp hd with ⟨f, hf, rfl⟩
    rcases List.mem_map.mp hd2 with ⟨g, hgm, rfl⟩
    rw [hg f hf g hgm]

/-- Witness for C8_amended at a concrete uniform GIF and a concrete video. -/
theorem C8_amended_witness :
    (∀ d ∈ resize_video_sizes 100 100 50 false [(3, 4)], d = video_new_size 100 100 50 false)
    ∧ (∀ d ∈ resize_gif_sizes [(10, 10), (10, 10)] 50 false,
        ∀ d2 ∈ resize_gif_sizes [(10, 10), (10, 10)] 50 false, d = d2) :=
  C8_amended 100 100 50 false [(3, 4)] [(10, 10), (10, 10)] (by decide)

/-- Claim C1 counterexample: a successful image job passes through the
observable state (status completed, progress 80) between the status write at
main.py line 121 and the progress write at line 122, violating the claimed
equivalence progress = 100 iff status = Completed at that observable point. -/
theorem C1_counterexample :
    ¬ ∀ o ∈ obsTrace (resize_image_run (some (100, 100)) 50 false),
      (o.progress = 100 ↔ o.status = Status.completed) := by
  decide

/-- Claim C1 amended: the equivalence progress = 100 iff status = Completed
holds at the final observable state of every job (and at creation), but not at
every intermediate observable point: video and GIF jobs reach progress 100
while the status still reads processing, and immediately after the status
flips to completed the progress still reads its last pre-completion value. -/
theorem C1_amended (r : AdapterResult) (o : Obs) (h : (obsTrace r).getLast? = some o) :
    o.progress = 100 ↔ o.status = Status.completed := by
  cases r with
  | ok ws =>
    rw [obsTrace_getLast_ok] at h
    injection h with h'
    subst h'
    decide
  | err ws =>
    rw [obsTrace_getLast_err] at h
    injection h with h'
    subst h'
    decide

/-- Witness for C1_amended: the final state of a failed job. -/
theorem C1_amended_witness :
    ((⟨Status.failed, 0⟩ : Obs).progress = 100
      ↔ (⟨Status.failed, 0⟩ : Obs).status = Status.completed) :=
  C1_amended (AdapterResult.err [5]) ⟨Status.failed, 0⟩ (obsTrace_getLast_err [5])

/-- Claim C2 counterexample: an image job that fails after reaching progress
20 (a readable 100x100 image downscaled with percentage 0, so cv.resize
raises) exposes the polled progress sequence 0, 20, 20, 0, which is not
non-decreasing. -/
theorem C2_counterexample :
    ¬ List.Chain' (· ≤ ·) (progressTrace (resize_image_run (some (100, 100)) 0 false)) := by
  rw [show progressTrace (resize_image_run (some (100, 100)) 0 false) = [0, 20, 20, 0] from rfl]
  simp [List.chain'_cons]

/-- Claim C2 amended: for a completed job whose per-frame progress writes are
non-decreasing and bounded by 100 - as holds for image jobs ([20, 80]) and for
video jobs whenever the frames actually read do not exceed the declared frame
count - the full polled sequence is non-decreasing and ends at exactly 100;
for a failed job the sequence ends at exactly 0 but may decrease at the
failure transition, because the failure handler resets progress to 0. -/
theorem C2_amended (ws e2 : List Nat) (h1 : List.Chain' (· ≤ ·) ws)
    (h2 : ∀ w ∈ ws, w ≤ 100) :
    List.Chain' (· ≤ ·) (progressTrace (AdapterResult.ok ws))
    ∧ (progressTrace (AdapterResult.ok ws)).getLast? = some 100
    ∧ (progressTrace (AdapterResult.err e2)).getLast? = some 0
    ∧ (∀ total numFrames : Nat, 0 < total → numFrames ≤ total →
        resize_video_run true 100 100 50 false total numFrames
          = AdapterResult.ok (videoWrites total numFrames)
        ∧ List.Chain' (· ≤ ·) (videoWrites total numFrames)
        ∧ ∀ w ∈ videoWrites total numFrames, w ≤ 100)
    ∧ resize_image_run (some (100, 100)) 50 false = AdapterResult.ok [20, 80] := by
  refine ⟨?_, ?_, ?_, ?_, by decide⟩
  · rw [progressTrace_ok]
    exact trace_chain ws h1 h2
  · rw [progressTrace_ok]
    rw [show (0 :: ws ++ [ws.getLast?.getD 0, 100])
        = (0 :: ws) ++ ws.getLast?.getD 0 :: [100] from rfl]
    rw [List.getLast?_append_cons]
    rfl
  · rw [progressTrace_err]
    rw [show (0 :: e2 ++ [e2.getLast?.getD 0, 0])
        = (0 :: e2) ++ e2.getLast?.getD 0 :: [0] from rfl]
    rw [List.getLast?_append_cons]
    rfl
  · intro total numFrames h0 hF
    have h0' : total ≠ 0 := by omega
    have hrun : resize_video_run true 100 100 50 false total numFrames
        = AdapterResult.ok (videoWrites total numFrames) := by
      have hl := videoLoop_eq (50, 50) (by decide) (by decide) total h0' numFrames 0
      have hsz : video_new_size 100 100 50 false = (50, 50) := by decide
      simp [resize_video_run, hsz, hl, videoWrites]
    exact ⟨hrun, videoWritesAux_chain total numFrames 0,
      fun w hw => videoWritesAux_le total h0 numFrames 0 (by omega) w hw⟩

/-- Witness for C2_amended at the image write sequence. -/
theorem C2_amended_witness :
    List.Chain' (· ≤ ·) (progressTrace (AdapterResult.ok [20, 80]))
    ∧ (progressTrace (AdapterResult.ok [20, 80])).getLast? = some 100
    ∧ (progressTrace (AdapterResult.err [20])).getLast? = some 0 := by
  have h := C2_amended [20, 80] [20] (by simp [List.chain'_cons]) (by decide)
  exact ⟨h.1, h.2.1, h.2.2.1⟩

/-- Claim C3 counterexample: an upload named "file.txt" is not rejected: the
response is the success body (task id, "processing") and a Job Registry entry
with status processing is created before the extension is ever examined, so an
orphan job id for an unsupported format does exist. -/
theorem C3_counterexample :
    (resize_media emptyStores "id1" "file.txt").2.1 = ("id1", "processing")
    ∧ List.lookup "id1" (resize_media emptyStores "id1" "file.txt").1.status
        = some "processing"
    ∧ (resize_media emptyStores "id1" "file.txt").2.2 = "txt" := by
  decide

/-- Claim C3 amended: an upload with an unsupported extension is accepted:
the endpoint returns the success body and creates a registry entry with
status processing; the rejection happens only asynchronously, when
process_file dispatches on the extension, raises "Unsupported file format",
and marks the job failed with progress 0. -/
theorem C3_amended (s : Stores) (id fn : String) (env : Env)
    (h : lastExtLower fn ∉ supportedExts) :
    (resize_media s id fn).2.1 = (id, "processing")
    ∧ List.lookup id (resize_media s id fn).1.status = some "processing"
    ∧ List.lookup id
        (process_file env (resize_media s id fn).1 id (resize_media s id fn).2.2).status
        = some "failed"
    ∧ List.lookup id
        (process_file env (resize_media s id fn).1 id (resize_media s id fn).2.2).progress
        = some 0 := by
  have hd : dispatch env (lastExtLower fn) = Except.error "Unsupported file format" :=
    dispatch_unsupported env _ h
  refine ⟨rfl, ?_, ?_, ?_⟩
  · simp [resize_media, List.lookup]
  · simp [resize_media, process_file, hd, List.lookup]
  · simp [resize_media, process_file, hd, List.lookup]

/-- Witness for C3_amended at the upload "file.txt". -/
theorem C3_amended_witness :
    (resize_media emptyStores "job1" "file.txt").2.1 = ("job1", "processing")
    ∧ List.lookup "job1" (resize_media emptyStores "job1" "file.txt").1.status
        = some "processing"
    ∧ List.lookup "job1"
        (process_file okEnv (resize_media emptyStores "job1" "file.txt").1 "job1"
          (resize_media emptyStores "job1" "file.txt").2.2).status
        = some "failed"
    ∧ List.lookup "job1"
        (process_file okEnv (resize_media emptyStores "job1" "file.txt").1 "job1"
          (resize_media emptyStores "job1" "file.txt").2.2).progress
        = some 0 :=
  C3_amended emptyStores "job1" "file.txt" okEnv (by decide)

/-- Claim C4 (confirmed): any exception raised inside the dispatched adapter
call is caught at the process_file boundary and converted into status failed,
progress 0, and the progress endpoint then permanently reports exactly
(failed, 0) for that job; process_file is a total function on stores, so no
exception propagates out of the background execution context. -/
theorem C4_executor_catches (env : Env) (s : Stores) (id ext msg : String)
    (h : dispatch env ext = Except.error msg) :
    List.lookup id (process_file env s id ext).status = some "failed"
    ∧ List.lookup id (process_file env s id ext).progress = some 0
    ∧ get_progress (process_file env s id ext) id = Except.ok (id, "failed", 0) := by
  simp [process_file, h, get_progress, List.lookup]

/-- Witness for C4_executor_catches with an adapter that raises "boom". -/
theorem C4_witness :
    List.lookup "j" (process_file failEnv emptyStores "j" "png").status = some "failed"
    ∧ List.lookup "j" (process_file failEnv emptyStores "j" "png").progress = some 0
    ∧ get_progress (process_file failEnv emptyStores "j" "png") "j"
        = Except.ok ("j", "failed", 0) :=
  C4_executor_catches failEnv emptyStores "j" "png" "boom" rfl

/-- Claim C9 (confirmed): the result endpoint returns the 400 "not completed"
error whenever the stored status is not completed, the 404 "not found" error
when the status is completed but the result path is absent, empty, or the
file does not exist, and otherwise streams the artifact with the media type
derived from the output extension, defaulting to application/octet-stream for
unknown extensions. -/
theorem C9_result_endpoint (s : Stores) (fileExists : String → Bool) (id : String) :
    (List.lookup id s.status ≠ some "completed" →
      get_result s fileExists id = Except.error (400, "Task not completed yet"))
    ∧ (List.lookup id s.status = some "completed" → List.lookup id s.result = none →
      get_result s fileExists id = Except.error (404, "Result file not found"))
    ∧ (∀ p, List.lookup id s.status = some "completed" → List.lookup id s.result = some p →
      p = "" ∨ fileExists p = false →
      get_result s fileExists id = Except.error (404, "Result file not found"))
    ∧ (∀ p, List.lookup id s.status = some "completed" → List.lookup id s.result = some p →
      p ≠ "" → fileExists p = true →
      get_result s fileExists id = Except.ok (p, mimeOf (lastExtLower p)))
    ∧ (∀ e2, e2 ∉ supportedExts → mimeOf e2 = "application/octet-stream") := by
  refine ⟨?_, ?_, ?_, ?_, ?_⟩
  · intro h
    simp [get_result, h]
  · intro h1 h2
    simp [get_result, h1, h2]
  · intro p h1 h2 h3
    rcases h3 with h3 | h3
    · subst h3
      simp [get_result, h1, h2]
    · simp [get_result, h1, h2, h3]
  · intro p h1 h2 h3 h4
    simp [get_result, h1, h2, h3, h4]
  · intro e2 h
    simp [supportedExts] at h
    obtain ⟨h1, h2, h3, h4, h5, h6, h7, h8, h9⟩ := h
    simp [mimeOf, h1, h2, h3, h4, h5, h6, h7, h8, h9]

/-- Witness for C9_result_endpoint: a completed job whose mp4 output exists is
streamed as video/mp4. -/
theorem C9_witness :
    get_result ⟨[("a", 100)], [("a", "completed")], [("a", "out.mp4")]⟩ (fun _ => true) "a"
      = Except.ok ("out.mp4", "video/mp4") := by
  have h := (C9_result_endpoint ⟨[("a", 100)], [("a", "completed")], [("a", "out.mp4")]⟩
      (fun _ => true) "a").2.2.2.1 "out.mp4" (by decide) (by decide) (by decide) (by decide)
  exact h.trans rfl

/-- Claim C10 (confirmed): for a task id that was never registered, the result
endpoint answers with the 400 "not completed" error (because
status_store.get returns None, which is not "completed"), while the progress
endpoint answers 404. -/
theorem C10_unknown_id (s : Stores) (fileExists : String → Bool) (id : String)
    (h1 : List.lookup id s.progress = none) (h2 : List.lookup id s.status = none) :
    get_result s fileExists id = Except.error (400, "Task not completed yet")
    ∧ get_progress s id = Except.error (404, "Task ID not found") := by
  constructor
  · simp [get_result, h2]
  · simp [get_progress, h1]

/-- Witness for C10_unknown_id on the empty store. -/
theorem C10_witness :
    get_result emptyStores (fun _ => false) "nope" = Except.error (400, "Task not completed yet")
    ∧ get_progress emptyStores "nope" = Except.error (404, "Task ID not found") :=
  C10_unknown_id emptyStores (fun _ => false) "nope" rfl rfl
